import Mathlib

set_option maxHeartbeats 1000000

deriving instance DecidableEq for Except

namespace PokiScraper

/- Shallow embedding of src/poki_scraper.py.  HTML documents are modelled through the
exact queries the scraper performs on them: a select function returning element lists,
a selectOne function, and the three direct find calls (the player iframe, the embedded
JSON script, and the poki-game-id meta tag).  Elements are modelled through the
attributes the scraper reads.  The two library regular-expression searches are
implemented directly over character lists.  Network and browser input enters through
an Env record; the parse field models BeautifulSoup. -/

/-- Membership of pat inside a character list, modelling the Python operator in on
strings (poki_scraper.py lines 71, 75, 125, 135, 199, 200, 422). -/
def listContainsSub (pat : List Char) : List Char → Bool
  | [] => pat.isEmpty
  | c :: cs => pat.isPrefixOf (c :: cs) || listContainsSub pat cs

/-- Model of the Python expression pat in s for strings. -/
def strContains (s pat : String) : Bool :=
  listContainsSub pat.data s.data

/-- Python truthiness choice between two strings, modelling the expression a or b where
both sides are strings and emptiness is falsity. -/
def pyOr (a b : String) : String := if a = "" then b else a

/-- Model of the Python method strip with no argument: whitespace removed from both
ends (Python also strips a few rarer unicode space characters; the difference is
immaterial to every property below). -/
def pyStrip (s : String) : String :=
  String.mk (((s.data.dropWhile Char.isWhitespace).reverse.dropWhile Char.isWhitespace).reverse)

/-- Model of the Python method startswith over the underlying characters. -/
def strStartsWith (s pat : String) : Bool := pat.data.isPrefixOf s.data

/-- Part of base before the first colon, used by the urljoin model. -/
def schemeOf (s : String) : String := String.mk (s.data.takeWhile (fun c => c ≠ ':'))

/-- Rest of the list after the first occurrence of pat, when pat occurs. -/
def dropAfterFirst (pat : List Char) : List Char → Option (List Char)
  | [] => none
  | c :: cs =>
    if pat.isPrefixOf (c :: cs) then some ((c :: cs).drop pat.length)
    else dropAfterFirst pat cs

/-- Scheme and authority of base, through the host, used by the urljoin model for
root-relative references. -/
def originOf (base : String) : String :=
  match dropAfterFirst "://".data base.data with
  | some rest => schemeOf base ++ "://" ++ String.mk (rest.takeWhile (fun c => c ≠ '/'))
  | none => ""

/-- Base with everything after the last path slash removed, used by the urljoin model
for plain relative references. -/
def baseDir (base : String) : String :=
  match dropAfterFirst "://".data base.data with
  | some rest =>
    let path := rest.dropWhile (fun c => c ≠ '/')
    if path.isEmpty then base ++ "/"
    else originOf base ++ String.mk ((path.reverse.dropWhile (fun c => c ≠ '/')).reverse)
  | none => base

/-- Model of urllib.parse.urljoin restricted to the base and reference shapes this
program produces: an empty reference keeps the base, a scheme-qualified reference wins
outright, a protocol-relative reference keeps the scheme of the base, a root-relative
reference replaces the whole path, and any other reference replaces the last path
segment of the base. -/
def urljoin (base rel : String) : String :=
  if rel = "" then base
  else if strContains rel "://" then rel
  else if strStartsWith rel "//" then schemeOf base ++ ":" ++ rel
  else if strStartsWith rel "/" then originOf base ++ rel
  else baseDir base ++ rel

/-- Lowercase hexadecimal digit test for the regular-expression character class a-f0-9. -/
def isHexLower (c : Char) : Bool := ('a' ≤ c && c ≤ 'f') || ('0' ≤ c && c ≤ '9')

/-- Exactly 32 hexadecimal characters taken from the front of l, when present. -/
def hexCapture (l : List Char) : Option String :=
  let h := l.take 32
  if h.length = 32 && h.all isHexLower then some (String.mk h) else none

/-- Model of re.search for the raw pattern /games/([a-f0-9]\x7b32\x7d), returning the
captured group of the leftmost match (poki_scraper.py line 433, applied to the url). -/
def searchGamesHex : List Char → Option String
  | [] => none
  | c :: cs =>
    if "/games/".data.isPrefixOf (c :: cs) then
      match hexCapture ((c :: cs).drop 7) with
      | some h => some h
      | none => searchGamesHex cs
    else searchGamesHex cs

/-- Attempt to match, at the head of l, the raw pattern
game_id\s*:\s*["\x27]([a-f0-9]\x7b32\x7d)["\x27], returning the captured group. -/
def gameIdAt (l : List Char) : Option String :=
  if "game_id".data.isPrefixOf l then
    match (l.drop 7).dropWhile Char.isWhitespace with
    | ':' :: r2 =>
      match r2.dropWhile Char.isWhitespace with
      | q :: r4 =>
        if q = Char.ofNat 34 || q = Char.ofNat 39 then
          let h := r4.take 32
          if h.length = 32 && h.all isHexLower then
            match r4.drop 32 with
            | q2 :: _ =>
              if q2 = Char.ofNat 34 || q2 = Char.ofNat 39 then some (String.mk h) else none
            | [] => none
          else none
        else none
      | [] => none
    | _ => none
  else none

/-- Model of re.search for the game_id pattern over the raw page text
(poki_scraper.py line 433, applied to the html argument). -/
def searchGameIdAttr : List Char → Option String
  | [] => none
  | c :: cs =>
    match gameIdAt (c :: cs) with
    | some h => some h
    | none => searchGameIdAttr cs

/-- Rest of the list after the last occurrence of pat, when pat occurs. -/
def afterLastAux (pat : List Char) : List Char → Option (List Char)
  | [] => none
  | c :: cs =>
    match afterLastAux pat cs with
    | some r => some r
    | none =>
      if pat.isPrefixOf (c :: cs) then some ((c :: cs).drop pat.length) else none

/-- Model of the Python expression s.split(pat)[-1]: the part after the last
occurrence of pat, or s itself when pat does not occur (poki_scraper.py line 423). -/
def afterLast (s pat : String) : String :=
  match afterLastAux pat.data s.data with
  | some r => String.mk r
  | none => s

/-- Consecutive slices of ten elements of an unchanging list, the intended reading of
the chunking loops range(0, len, 10) with slice [i : i + 10]. -/
def chunks10 : List α → List (List α)
  | [] => []
  | x :: xs => ((x :: xs).take 10) :: chunks10 ((x :: xs).drop 10)
termination_by l => l.length
decreasing_by simp; omega

/-- Model of a BeautifulSoup element as seen through the attribute and text accesses
the scraper performs: stripped or raw text, and the content, src and href attributes
(each possibly absent, matching Tag.get returning a default). -/
structure Elem where
  text : String := ""
  content : Option String := none
  src : Option String := none
  href : Option String := none
  deriving DecidableEq, Repr

/-- Entry of the assets list inside the embedded JSON payload.  The width key may be
absent (Python falls back to 0 via get); the name key is modelled as present, since
its absence raises inside the guarded block and aborts the whole JSON path, a case no
claim exercises. -/
structure Asset where
  name : String := ""
  width : Option Int := none
  deriving DecidableEq, Repr

/-- Nested game object of the embedded JSON payload, as read by the scraper:
title, description, assets and objectID, each possibly absent. -/
structure GDGame where
  title : Option String := none
  description : Option String := none
  assets : List Asset := []
  objectID : Option String := none
  deriving DecidableEq, Repr

/-- Outcome of reading the embedded JSON script tag: the text may fail to parse as
JSON (or lack the expected dictionary shape), which the source catches and treats as a
fallthrough, or it parses and the nested props.pageProps.game object is either falsy
(absent or empty) or available. -/
inductive NextScript where
  | unparseable : NextScript
  | parsed : Option GDGame → NextScript
  deriving DecidableEq, Repr

/-- Model of a parsed HTML document through the queries the scraper performs on it:
CSS select and select_one, plus the three direct find calls.  Fields default to empty
results so that fixtures only state what a page contains. -/
structure Html where
  select : String → List Elem := fun _ => []
  selectOne : String → Option Elem := fun _ => none
  iframeGameElement : Option Elem := none
  nextDataScript : Option NextScript := none
  metaPokiGameId : Option Elem := none

/-- Emitted record with the five fields every emission site of extract_game_info
populates. -/
structure GameRecord where
  name : String
  description : String
  image_url : String
  game_url : String
  game_api_url : String
  deriving DecidableEq, Repr

/-- Value drawn from an element in the name and description selector loops:
the content attribute with empty default, or else the stripped element text
(poki_scraper.py lines 217, 344, 375). -/
def elemValue (e : Elem) : String := pyOr (e.content.getD "") (pyStrip e.text)

/-- First selector in sels whose element exists and yields a non-empty value through
elemValue; empty when none does.  Models the break-on-truthy selector loops. -/
def chainValue (selOne : String → Option Elem) : List String → String
  | [] => ""
  | s :: rest =>
    match selOne s with
    | none => chainValue selOne rest
    | some e =>
      let v := elemValue e
      if v = "" then chainValue selOne rest else v

/-- One step of the largest-width scan over the assets list
(poki_scraper.py lines 257-260). -/
def selectImageStep (acc : String × Int) (a : Asset) : String × Int :=
  if a.width.getD 0 > acc.2 then
    ("https://img.gamedistribution.com/" ++ a.name, a.width.getD 0)
  else acc

/-- Image selection over the assets list: starting from an empty url and width 0, an
asset replaces the accumulator exactly when its declared width is strictly greater
(poki_scraper.py lines 255-260). -/
def selectImage (assets : List Asset) : String × Int :=
  assets.foldl selectImageStep ("", 0)

/-- Name selector chain of the generic fallback, two shared entries followed by
site-specific entries (poki_scraper.py lines 316-339). -/
def nameSelectors (ip ig : Bool) : List String :=
  ["meta[property=\"og:title\"]", "meta[name=\"title\"]"] ++
    (if ip then ["h1.game-name", "h1[class*=\"GameName\"]", ".game-title", "[class*=\"title\"]"]
     else if ig then ["h1", ".game-title", "[class*=\"game-name\"]"]
     else ["h1", "h2", "[class*=\"title\"]", "[class*=\"game-title\"]"])

/-- Description selector chain of the generic fallback (poki_scraper.py lines 349-370). -/
def descSelectors (ip ig : Bool) : List String :=
  ["meta[name=\"description\"]", "meta[property=\"og:description\"]"] ++
    (if ip then [".game-description", "[class*=\"Description\"]", ".description"]
     else if ig then [".game-description", "[class*=\"game-details\"]", "[class*=\"description\"]"]
     else ["[class*=\"description\"]", "[class*=\"game-description\"]"])

/-- Image selector chain of the generic fallback (poki_scraper.py lines 380-402). -/
def imgSelectors (ip ig : Bool) : List String :=
  ["meta[property=\"og:image\"]", "meta[name=\"thumbnail\"]"] ++
    (if ip then [".game-image img", "[class*=\"GameImage\"] img", ".thumbnail img"]
     else if ig then [".game-preview img", ".game-thumbnail img", "[class*=\"game-image\"] img"]
     else ["[class*=\"game-image\"] img", "[class*=\"thumbnail\"] img",
           "img[src*=\"img.gamedistribution.com\"]"])

/-- Image chain of the generic fallback: value is the content attribute or else the
src attribute; a non-empty value stops the loop and, when not absolute, is joined
against the gamepix base when is_gamepix and the gamedistribution base otherwise
(poki_scraper.py lines 404-415). -/
def imageChain (selOne : String → Option Elem) (ig : Bool) : List String → String
  | [] => ""
  | s :: rest =>
    match selOne s with
    | none => imageChain selOne ig rest
    | some e =>
      let v := pyOr (e.content.getD "") (e.src.getD "")
      if v = "" then imageChain selOne ig rest
      else if strStartsWith v "http" then v
      else urljoin (if ig then "https://www.gamepix.com" else "https://gamedistribution.com") v

/-- Name resolved by the generic fallback chain for the site of url. -/
def genericName (soup : Html) (url : String) : String :=
  chainValue soup.selectOne (nameSelectors (strContains url "poki.com") (strContains url "gamepix.com"))

/-- Description resolved by the generic fallback chain for the site of url. -/
def genericDesc (soup : Html) (url : String) : String :=
  chainValue soup.selectOne (descSelectors (strContains url "poki.com") (strContains url "gamepix.com"))

/-- Image url resolved by the generic fallback chain for the site of url. -/
def genericImg (soup : Html) (url : String) : String :=
  imageChain soup.selectOne (strContains url "gamepix.com")
    (imgSelectors (strContains url "poki.com") (strContains url "gamepix.com"))

/-- Playable url resolved by the generic fallback: for poki an id from the url path
after /g/ or from a dedicated meta tag fills a CDN template; for the
gamedistribution case a 32-digit hexadecimal id found in the url or the raw html
fills an embed template; for gamepix the embed iframe source is reused
(poki_scraper.py lines 418-440, with the empty string standing for None). -/
def genericApiUrl (soup : Html) (raw url : String) (ip ig : Bool) : String :=
  if ip then
    let gid :=
      if strContains url "/g/" then afterLast url "/g/"
      else match soup.metaPokiGameId with
           | some e => e.content.getD ""
           | none => ""
    if gid = "" then "" else "https://game-cdn.poki.com/" ++ gid ++ "/index.html"
  else if !ig then
    match searchGamesHex url.data with
    | some gid => "https://html5.gamedistribution.com/" ++ gid ++ "/"
    | none =>
      match searchGameIdAttr raw.data with
      | some gid => "https://html5.gamedistribution.com/" ++ gid ++ "/"
      | none => ""
  else
    match soup.selectOne "iframe[src*=\"/embed/\"]" with
    | some e => e.src.getD ""
    | none => ""

/-- Generic fallback extraction (poki_scraper.py lines 314-451): each field is
resolved by its own chain, and a record is emitted exactly when name is non-empty and
description or image_url is non-empty. -/
def genericPath (soup : Html) (raw url : String) : Option GameRecord :=
  let name := genericName soup url
  let desc := genericDesc soup url
  let img := genericImg soup url
  let api := genericApiUrl soup raw url (strContains url "poki.com") (strContains url "gamepix.com")
  if name = "" then none
  else if desc = "" ∧ img = "" then none
  else some { name := name, description := desc, image_url := img,
              game_url := url, game_api_url := api }

/-- Name resolved by the iframe-identity path: a three-entry chain of h1, the
open-graph title and the document title (poki_scraper.py lines 213-219). -/
def pokiIframeName (soup : Html) : String :=
  chainValue soup.selectOne ["h1", "meta[property=\"og:title\"]", "title"]

/-- Description taken by the iframe-identity path from the open-graph tag
(poki_scraper.py lines 221-224). -/
def pokiIframeDesc (soup : Html) : String :=
  match soup.selectOne "meta[property=\"og:description\"]" with
  | some e => e.content.getD ""
  | none => ""

/-- Image taken by the iframe-identity path from the open-graph tag
(poki_scraper.py lines 226-229). -/
def pokiIframeImg (soup : Html) : String :=
  match soup.selectOne "meta[property=\"og:image\"]" with
  | some e => e.content.getD ""
  | none => ""

/-- Iframe-identity extraction for poki (poki_scraper.py lines 203-238): requires the
game-element iframe with a truthy src, which becomes the playable url after
resolution against the poki base, and emits once name is non-empty. -/
def pokiIframePath (soup : Html) (url : String) : Option GameRecord :=
  match soup.iframeGameElement with
  | none => none
  | some ifr =>
    if ifr.src.getD "" = "" then none
    else if pokiIframeName soup = "" then none
    else some { name := pokiIframeName soup, description := pokiIframeDesc soup,
                image_url := pokiIframeImg soup, game_url := url,
                game_api_url :=
                  if strStartsWith (ifr.src.getD "") "http" then ifr.src.getD ""
                  else urljoin "https://poki.com" (ifr.src.getD "") }

/-- Embedded-JSON extraction for gamedistribution (poki_scraper.py lines 243-273):
requires the parsed payload with a truthy game object, derives the fields from it,
and emits exactly when the objectID is present, composing the embed url from it. -/
def gdJsonPath (soup : Html) (url : String) : Option GameRecord :=
  match soup.nextDataScript with
  | some (NextScript.parsed (some g)) =>
    let name := g.title.getD ""
    let desc := g.description.getD ""
    let img := (selectImage g.assets).1
    let gid := g.objectID.getD ""
    if gid = "" then none
    else some { name := name, description := desc, image_url := img,
                game_url := url,
                game_api_url := "https://html5.gamedistribution.com/" ++ gid ++ "/" }
  | _ => none

/-- Name taken by the gamepix structured block: the stripped h1 text
(poki_scraper.py lines 281-283). -/
def gamepixName (soup : Html) : String :=
  match soup.selectOne "h1" with
  | some e => pyStrip e.text
  | none => ""

/-- Description taken by the gamepix structured block: the stripped content of the
description meta tag (poki_scraper.py lines 286-289). -/
def gamepixDesc (soup : Html) : String :=
  match soup.selectOne "meta[name=\"description\"]" with
  | some e => pyStrip (e.content.getD "")
  | none => ""

/-- Image taken by the gamepix structured block: the open-graph image content
(poki_scraper.py lines 292-295). -/
def gamepixImg (soup : Html) : String :=
  match soup.selectOne "meta[property=\"og:image\"]" with
  | some e => e.content.getD ""
  | none => ""

/-- Playable url taken by the gamepix structured block: the embed iframe source
(poki_scraper.py lines 298-301). -/
def gamepixApi (soup : Html) : String :=
  match soup.selectOne "iframe[src*=\"/embed/\"]" with
  | some e => e.src.getD ""
  | none => ""

/-- Structured extraction for gamepix (poki_scraper.py lines 278-312): emitted when
name is non-empty and description or image is non-empty. -/
def gamepixPath (soup : Html) (url : String) : Option GameRecord :=
  if gamepixName soup = "" then none
  else if gamepixDesc soup = "" ∧ gamepixImg soup = "" then none
  else some { name := gamepixName soup, description := gamepixDesc soup,
              image_url := gamepixImg soup, game_url := url,
              game_api_url := gamepixApi soup }

/-- Extraction over a parsed document: the specialized strategies guarded by the site
tests are tried in source order, then the generic fallback (poki_scraper.py
lines 198-451). -/
def extractParsed (soup : Html) (s url : String) : Option GameRecord :=
  let ip := strContains url "poki.com"
  let ig := strContains url "gamepix.com"
  match (if ip then pokiIframePath soup url else none) with
  | some r => some r
  | none =>
    match (if !ip && !ig then gdJsonPath soup url else none) with
    | some r => some r
    | none =>
      match (if ig then gamepixPath soup url else none) with
      | some r => some r
      | none => genericPath soup s url

/-- Model of extract_game_info (poki_scraper.py lines 193-451): an absent or empty
html argument yields nothing before any parsing; otherwise the document is parsed and
the strategy chain runs. -/
def extract_game_info (parse : String → Html) (html : Option String) (url : String) :
    Option GameRecord :=
  match html with
  | none => none
  | some s => if s = "" then none else extractParsed (parse s) s url

/-- Poki listing selector chain (poki_scraper.py lines 127-134; this block is
unreachable inside the rendering branch but is modelled faithfully). -/
def pokiListingSelectors : List String :=
  ["a[href*=\"/g/\"]", ".game-tile a", ".game-card a", "article.game-item a",
   "[class*=\"GameTile\"] a", "[class*=\"game-wrapper\"] a"]

/-- Gamepix listing selector chain (poki_scraper.py lines 137-141). -/
def gamepixListingSelectors : List String :=
  ["a[href*=\"/play/\"]", ".game-card a", "[class*=\"game\"] a"]

/-- Gamedistribution listing selector chain (poki_scraper.py lines 144-148). -/
def gdListingSelectors : List String :=
  ["a[href*=\"/games/\"]", ".game-card a", "[class*=\"game\"] a"]

/-- First selector chain entry with a non-empty match list, modelling the chained
Python or over select results; the empty list when every entry misses. -/
def selectFirstNonEmpty (select : String → List Elem) : List String → List Elem
  | [] => []
  | s :: rest =>
    let r := select s
    if r.isEmpty then selectFirstNonEmpty select rest else r

/-- Link discovery over the rendered listing page (poki_scraper.py lines 123-148). -/
def discoverLinks (select : String → List Elem) (url : String) : List Elem :=
  if strContains url "poki.com" then selectFirstNonEmpty select pokiListingSelectors
  else if strContains url "gamepix.com" then selectFirstNonEmpty select gamepixListingSelectors
  else selectFirstNonEmpty select gdListingSelectors

/-- Value held by the games list of the rendering branch: the discovered link
elements it starts from, and the extracted record dictionaries appended to it. -/
inductive GVal where
  | tag : Elem → GVal
  | extracted : GameRecord → GVal
  deriving DecidableEq, Repr

/-- Model of game.get with key href and empty default: the href attribute of a link
element, and the empty string on a record dictionary, which has no href key. -/
def GVal.hrefOf : GVal → String
  | .tag e => e.href.getD ""
  | .extracted _ => ""

/-- Test distinguishing extracted records from raw link elements. -/
def isRecordVal : GVal → Bool
  | .tag _ => false
  | .extracted _ => true

/-- Link elements contained in a games-list slice, in order. -/
def tagsOf (l : List GVal) : List Elem :=
  l.filterMap fun g =>
    match g with
    | .tag e => some e
    | .extracted _ => none

/-- External inputs of one run: the BeautifulSoup parse of fetched bodies, the
fetch_page results per url (absent on any fetch failure), the parsed rendered
document per seed url as produced by the browser session, and whether the browser
driver can be created at all. -/
structure Env where
  parse : String → Html := fun _ => {}
  fetch : String → Option String := fun _ => none
  renderedDoc : String → Html := fun _ => {}
  driverOk : Bool := true

/-- Url at which a discovered element is fetched: its href joined against the seed
url when relative (poki_scraper.py lines 48-52). -/
def requestUrl (url : String) (g : GVal) : String :=
  if strStartsWith (GVal.hrefOf g) "http" then GVal.hrefOf g
  else urljoin url (GVal.hrefOf g)

/-- Fetch stage of a rendering-path batch, modelling process_game_batch
(poki_scraper.py lines 44-55): one gathered task per element with a non-empty href,
fetched at the href joined against the seed url when relative. -/
def process_game_batch (env : Env) (url : String) (batch : List GVal) : List (Option String) :=
  batch.filterMap fun g =>
    if GVal.hrefOf g = "" then none
    else some (env.fetch (requestUrl url g))

/-- Base url hardcoded per site when the stored game_url is resolved in the rendering
branch (poki_scraper.py lines 167-173). -/
def resolveHardcoded (url href : String) : String :=
  if strStartsWith href "http" then href
  else if strContains url "poki.com" then urljoin "https://poki.com" href
  else if strContains url "gamepix.com" then urljoin "https://www.gamepix.com" href
  else urljoin "https://gamedistribution.com" href

/-- Processing of one response-element pair of the zip loop (poki_scraper.py
lines 160-177): the pair is dropped when the response is absent or empty or when the
element href is empty, and is otherwise extracted at the hardcoded-base resolution of
the href. -/
def extractPair (env : Env) (url : String) (p : Option String × GVal) : Option GameRecord :=
  match p.1 with
  | none => none
  | some t =>
    if t = "" then none
    else if GVal.hrefOf p.2 = "" then none
    else extract_game_info env.parse (some t) (resolveHardcoded url (GVal.hrefOf p.2))

/-- Extraction stage of a rendering-path batch (poki_scraper.py lines 157-182):
gathered responses are zipped positionally with the batch and each pair is processed.
Completion order of the thread pool is modelled as submission order; no property
proved below depends on it. -/
def batchRecords (env : Env) (url : String) (batch : List GVal) : List GameRecord :=
  ((process_game_batch env url batch).zip batch).filterMap (extractPair env url)

/-- Intended per-element processing of a batch: fetch the element at its resolved
href and extract the response, if any, at that same element's stored url.  This is
the reading under which fetch results stay with their requesting link. -/
def fetchExtract (env : Env) (url : String) (g : GVal) : Option GameRecord :=
  match env.fetch (requestUrl url g) with
  | none => none
  | some t =>
    if t = "" then none
    else extract_game_info env.parse (some t) (resolveHardcoded url (GVal.hrefOf g))

/-- Batch start indices of the rendering loop, range(0, n, 10) with n evaluated once
at loop entry (poki_scraper.py line 153). -/
def renderIndices (n : Nat) : List Nat := (List.range ((n + 9) / 10)).map (fun k => 10 * k)

/-- Links discovered on the rendered listing page of url. -/
def discoveredLinks (env : Env) (url : String) : List Elem :=
  discoverLinks (env.renderedDoc url).select url

/-- One iteration of the rendering-branch batch loop: the batch is sliced from the
CURRENT games list, and the records extracted from it are appended to that same list;
the slice itself is recorded for inspection. -/
def renderStep (env : Env) (url : String) (acc : List GVal × List (List GVal)) (i : Nat) :
    List GVal × List (List GVal) :=
  let b := (acc.1.drop i).take 10
  (acc.1 ++ (batchRecords env url b).map GVal.extracted, acc.2 ++ [b])

/-- Batched loop of the rendering branch (poki_scraper.py lines 124-184): the games
list starts as the discovered link elements and every batch start index slices the
current list. -/
def renderSteps (env : Env) (url : String) : List GVal × List (List GVal) :=
  let links := discoveredLinks env url
  (renderIndices links.length).foldl (renderStep env url) (links.map GVal.tag, [])

/-- Final games list returned by the rendering branch. -/
def renderScrape (env : Env) (url : String) : List GVal := (renderSteps env url).1

/-- Batch slices taken by the rendering branch, in processing order. -/
def renderBatches (env : Env) (url : String) : List (List GVal) := (renderSteps env url).2

/-- State of the rendering loop after its first m batch indices. -/
def stateAt (env : Env) (url : String) (m : Nat) : List GVal × List (List GVal) :=
  ((List.range m).map (fun k => 10 * k)).foldl (renderStep env url)
    ((discoveredLinks env url).map GVal.tag, [])

/-- Link discovery of the async poki branch (poki_scraper.py lines 73-79): anchors of
the /g/ selector with a truthy href containing /g/, resolved against the poki base. -/
def pokiGameLinks (soup : Html) : List String :=
  (soup.select "a[href*=\"/g/\"]").filterMap fun a =>
    let href := a.href.getD ""
    if href = "" then none
    else if strContains href "/g/" then
      some (if strStartsWith href "http" then href else urljoin "https://poki.com" href)
    else none

/-- Processing of one response-link pair of the async branch (poki_scraper.py
lines 92-96). -/
def chunkExtract (env : Env) (p : Option String × String) : Option GameRecord :=
  match p.1 with
  | none => none
  | some t => if t = "" then none else extract_game_info env.parse (some t) p.2

/-- Record extraction over one async-branch chunk (poki_scraper.py lines 87-96):
every link is fetched, results are zipped positionally with the chunk, and truthy
responses are extracted at their own link. -/
def chunkRecords (env : Env) (chunk : List String) : List GameRecord :=
  ((chunk.map env.fetch).zip chunk).filterMap (chunkExtract env)

/-- Intended per-link processing of the async branch: fetch the link and extract the
response, if any, at that same link. -/
def linkFetchExtract (env : Env) (link : String) : Option GameRecord :=
  match env.fetch link with
  | none => none
  | some t => if t = "" then none else extract_game_info env.parse (some t) link

/-- Chunks taken by the async poki branch: slices of ten at the indices
range(0, len, 10) over the unchanging link list (poki_scraper.py lines 84-86). -/
def pokiChunks (l : List String) : List (List String) :=
  (renderIndices l.length).map (fun i => (l.drop i).take 10)

/-- Async poki branch (poki_scraper.py lines 71-97): discovered links are processed
in chunks of ten, accumulating extracted records into a separate list. -/
def pokiScrape (env : Env) (listingHtml : String) : List GameRecord :=
  (pokiChunks (pokiGameLinks (env.parse listingHtml))).foldl
    (fun acc c => acc ++ chunkRecords env c) []

/-- Model of scrape_website (poki_scraper.py lines 57-191): a failed or empty listing
fetch yields the empty list; a poki url runs the async branch; otherwise the
rendering branch runs when the driver can start, and a driver failure is the
uncatchable SystemExit of setup_driver (line 32), modelled as an error value no
Exception handler absorbs. -/
def scrape_website (env : Env) (url : String) : Except Nat (List GVal) :=
  match env.fetch url with
  | none => .ok []
  | some h0 =>
    if h0 = "" then .ok []
    else if strContains url "poki.com" then .ok ((pokiScrape env h0).map GVal.extracted)
    else if env.driverOk then .ok (renderScrape env url)
    else .error 1

/-- Seed urls of main (poki_scraper.py lines 490-494). -/
def websitesList : List String :=
  ["https://poki.com/en", "https://gamedistribution.com/games/", "https://www.gamepix.com/"]

/-- Per-site loop of main (poki_scraper.py lines 498-510): results are accumulated
across sites; the per-site handler catches Exception only, so the SystemExit of a
driver failure terminates the whole loop.  The filter removing None values is a no-op
on typed results and is not modelled separately. -/
def mainLoop (env : Env) : List String → List GVal → Except Nat (List GVal)
  | [], acc => .ok acc
  | w :: ws, acc =>
    match scrape_website env w with
    | .error c => .error c
    | .ok gs => mainLoop env ws (acc ++ gs)

/-- Model of main over the fixed seed list. -/
def mainModel (env : Env) : Except Nat (List GVal) := mainLoop env websitesList []

/-- Presence of the iframe-identity signal: the game-element iframe exists and its
src attribute is truthy. -/
def hasIframeSignal (soup : Html) : Bool :=
  match soup.iframeGameElement with
  | some e => (e.src.getD "") != ""
  | none => false

/-- Identifier carried by the embedded JSON payload, or the empty string when the
script is absent, unparseable, lacks a truthy game object, or lacks the objectID. -/
def jsonIdent (soup : Html) : String :=
  match soup.nextDataScript with
  | some (NextScript.parsed (some g)) => g.objectID.getD ""
  | _ => ""

/- Concrete fixtures used below to instantiate and to refute the claims. -/

/-- Detail page carrying an h1 heading and a description meta tag only. -/
def docGameA : Html :=
  { selectOne := fun s =>
      if s = "h1" then some { text := "GameA" }
      else if s = "meta[name=\"description\"]" then some { content := some "about A" }
      else none }

/-- Second detail page of the same shape with distinct field values. -/
def docGameB : Html :=
  { selectOne := fun s =>
      if s = "h1" then some { text := "GameB" }
      else if s = "meta[name=\"description\"]" then some { content := some "about B" }
      else none }

/-- Parser fixture returning the two detail pages for the bodies HA and HB. -/
def parseAB : String → Html :=
  fun s => if s = "HA" then docGameA else if s = "HB" then docGameB else {}

/-- Environment in which two detail urls fetch the bodies HA and HB. -/
def envPairing : Env :=
  { parse := parseAB,
    fetch := fun u =>
      if u = "https://x.example/a" then some "HA"
      else if u = "https://x.example/b" then some "HB"
      else none }

/-- Discovered link element whose anchor has no href attribute. -/
def tagNoHref : GVal := GVal.tag {}

/-- Discovered link element pointing at the first detail url. -/
def tagA : GVal := GVal.tag { href := some "https://x.example/a" }

/-- Discovered link element pointing at the second detail url. -/
def tagB : GVal := GVal.tag { href := some "https://x.example/b" }

/-- Parser fixture whose embedded JSON payload has an identifier but no title. -/
def parseEmptyName : String → Html :=
  fun _ => { nextDataScript := some (NextScript.parsed (some { objectID := some "gid01" })) }

/-- Detail page for the gamepix structured block: h1 and description meta. -/
def docPixi : Html :=
  { selectOne := fun s =>
      if s = "h1" then some { text := "Pixi" }
      else if s = "meta[name=\"description\"]" then some { content := some "pix d" }
      else none }

/-- Detail page carrying the poki player iframe and an h1 heading. -/
def docIframe : Html :=
  { selectOne := fun s => if s = "h1" then some { text := "IframeGame" } else none,
    iframeGameElement := some { src := some "https://games.poki.com/x.html" } }

/-- Record extracted from docIframe at the poki detail url. -/
def recIframe : GameRecord :=
  { name := "IframeGame", description := "", image_url := "",
    game_url := "https://poki.com/en/g/xg",
    game_api_url := "https://games.poki.com/x.html" }

/-- Listing page of the async poki branch with one discovered game anchor. -/
def listingPoki : Html :=
  { select := fun s =>
      if s = "a[href*=\"/g/\"]" then [{ href := some "https://poki.com/en/g/xg" }] else [] }

/-- Environment for a full async poki run over one link. -/
def envPoki : Env :=
  { parse := fun s => if s = "PLIST" then listingPoki else if s = "PDET" then docIframe else {},
    fetch := fun u =>
      if u = "https://poki.com/en" then some "PLIST"
      else if u = "https://poki.com/en/g/xg" then some "PDET"
      else none }

/-- Rendered listing with a single discovered link element. -/
def listingOne : Html :=
  { select := fun s =>
      if s = "a[href*=\"/play/\"]" then [{ href := some "https://g.example/z" }] else [] }

/-- Environment in which the rendering branch discovers one link whose detail fetch
fails, so no record is ever extracted. -/
def envTagOnly : Env :=
  { fetch := fun u => if u = "https://www.gamepix.com/" then some "L" else none,
    renderedDoc := fun _ => listingOne }

/-- Environment in which the rendering-site listing fetch succeeds but the browser
driver cannot be created. -/
def envDriverFail : Env :=
  { fetch := fun u => if u = "https://gamedistribution.com/games/" then some "R" else none,
    driverOk := false }

/-- Environment with a working driver and no network responses. -/
def envAllOk : Env := {}

/-- Rendered listing with three discovered link elements. -/
def listing3 : Html :=
  { select := fun s =>
      if s = "a[href*=\"/play/\"]" then
        [{ href := some "https://g.example/1" }, { href := some "https://g.example/2" },
         { href := some "https://g.example/3" }]
      else [] }

/-- Environment whose rendering branch discovers exactly three links. -/
def envSmallRender : Env := { renderedDoc := fun _ => listing3 }

/-- The single batch slice produced from the three discovered links. -/
def batch3 : List GVal :=
  [GVal.tag { href := some "https://g.example/1" }, GVal.tag { href := some "https://g.example/2" },
   GVal.tag { href := some "https://g.example/3" }]

/-- Select fixture on which only the third listing strategy matches. -/
def selThird : String → List Elem :=
  fun s => if s = "[class*=\"game\"] a" then [{ href := some "/play/z" }] else []

/-- Assets list with the declared widths 200, 800 and 400. -/
def assetsExample : List Asset :=
  [{ name := "w200", width := some 200 }, { name := "w800", width := some 800 },
   { name := "w400", width := some 400 }]

/-- The width-800 asset of assetsExample. -/
def assetBig : Asset := { name := "w800", width := some 800 }

/-- Record emitted by the JSON-embedded-data path for parseEmptyName: its name is
empty because the payload has no title. -/
def recEmptyName : GameRecord :=
  { name := "", description := "", image_url := "",
    game_url := "https://gamedistribution.com/games/zzz",
    game_api_url := "https://html5.gamedistribution.com/gid01/" }

/-- Record extracted from docPixi at a gamepix detail url. -/
def recPixi : GameRecord :=
  { name := "Pixi", description := "pix d", image_url := "",
    game_url := "https://www.gamepix.com/play/pixi", game_api_url := "" }

/- Helper lemmas about the string model. -/

theorem str_ne_empty_iff (s : String) : s ≠ "" ↔ s.data ≠ [] := by
  simp [Ne, String.ext_iff]

theorem append_ne_empty_right (a b : String) (h : b ≠ "") : a ++ b ≠ "" := by
  intro hc
  rw [str_ne_empty_iff] at h
  apply h
  have hd := congrArg String.data hc
  rw [String.data_append] at hd
  simpa using (List.append_eq_nil.mp hd).2

theorem pyOr_left {a b : String} (h : a ≠ "") : pyOr a b = a := by
  simp [pyOr, h]

theorem pyStrip_empty : pyStrip "" = "" := rfl

theorem pyStrip_ne {s : String} (h : pyStrip s ≠ "") : s ≠ "" := by
  intro hc
  subst hc
  exact h pyStrip_empty

theorem urljoin_ne_empty (base rel : String) (h : rel ≠ "") : urljoin base rel ≠ "" := by
  unfold urljoin
  split_ifs with h1 h2 h3 h4
  · exact absurd h1 h
  · exact h
  · exact append_ne_empty_right _ _ h
  · exact append_ne_empty_right _ _ h
  · exact append_ne_empty_right _ _ h

theorem elemValue_ne_of_text {e : Elem} (h : pyStrip e.text ≠ "") : elemValue e ≠ "" := by
  unfold elemValue pyOr
  split_ifs with hc
  · exact h
  · exact hc

theorem elemValue_ne_of_content {e : Elem} (h : e.content.getD "" ≠ "") : elemValue e ≠ "" := by
  unfold elemValue
  rw [pyOr_left h]
  exact h

/- Helper lemmas about the field chains. -/

theorem chainValue_ne_of_mem {selOne : String → Option Elem} {sel : String} {e : Elem}
    (hv : elemValue e ≠ "") :
    ∀ {sels : List String}, sel ∈ sels → selOne sel = some e → chainValue selOne sels ≠ "" := by
  intro sels
  induction sels with
  | nil => intro hmem; cases hmem
  | cons s rest ih =>
    intro hmem he
    rw [chainValue]
    cases hse : selOne s with
    | none =>
      have hrest : sel ∈ rest := by
        rcases List.mem_cons.mp hmem with h1 | h1
        · subst h1; rw [he] at hse; cases hse
        · exact h1
      exact ih hrest he
    | some e2 =>
      by_cases hval : elemValue e2 = ""
      · have hrest : sel ∈ rest := by
          rcases List.mem_cons.mp hmem with h1 | h1
          · subst h1; rw [he] at hse; injection hse with h2; subst h2; exact absurd hval hv
          · exact h1
        simpa [hval] using ih hrest he
      · simp [hval]

theorem imageChain_ne_of_mem {selOne : String → Option Elem} {ig : Bool} {sel : String} {e : Elem}
    (hv : pyOr (e.content.getD "") (e.src.getD "") ≠ "") :
    ∀ {sels : List String}, sel ∈ sels → selOne sel = some e → imageChain selOne ig sels ≠ "" := by
  intro sels
  induction sels with
  | nil => intro hmem; cases hmem
  | cons s rest ih =>
    intro hmem he
    rw [imageChain]
    cases hse : selOne s with
    | none =>
      have hrest : sel ∈ rest := by
        rcases List.mem_cons.mp hmem with h1 | h1
        · subst h1; rw [he] at hse; cases hse
        · exact h1
      exact ih hrest he
    | some e2 =>
      by_cases hval : pyOr (e2.content.getD "") (e2.src.getD "") = ""
      · have hrest : sel ∈ rest := by
          rcases List.mem_cons.mp hmem with h1 | h1
          · subst h1; rw [he] at hse; injection hse with h2; subst h2; exact absurd hval hv
          · exact h1
        simpa [hval] using ih hrest he
      · by_cases hh : strStartsWith (pyOr (e2.content.getD "") (e2.src.getD "")) "http" = true
        · simp [hval, hh]
        · simpa [hval, hh] using
            urljoin_ne_empty (if ig then "https://www.gamepix.com" else "https://gamedistribution.com")
              _ hval

/- Claim theorems for C10, C8 and C7. -/

/-- C10: for every url, extract_game_info returns nothing when the html argument is
absent or the empty string, independently of the parser and hence without any
parsing, and (being total) without raising. -/
theorem extract_missing_html (parse : String → Html) (url : String) :
    extract_game_info parse none url = none ∧ extract_game_info parse (some "") url = none :=
  ⟨rfl, rfl⟩

theorem selectImage_foldl_skip (l : List Asset) (acc : String × Int)
    (h : ∀ b ∈ l, b.width.getD 0 ≤ acc.2) : l.foldl selectImageStep acc = acc := by
  induction l generalizing acc with
  | nil => rfl
  | cons c t ih =>
    rw [List.foldl_cons]
    have hc := h c (by simp)
    have hstep : selectImageStep acc c = acc := by
      unfold selectImageStep
      rw [if_neg (not_lt.mpr hc)]
    rw [hstep]
    exact ih acc (fun b hb => h b (by simp [hb]))

theorem selectImage_foldl_max (a : Asset) :
    ∀ (l : List Asset) (acc : String × Int), a ∈ l →
      (∀ b ∈ l, b ≠ a → b.width.getD 0 < a.width.getD 0) →
      acc.2 < a.width.getD 0 →
      l.foldl selectImageStep acc =
        ("https://img.gamedistribution.com/" ++ a.name, a.width.getD 0) := by
  intro l
  induction l with
  | nil => intro acc hmem; cases hmem
  | cons c t ih =>
    intro acc hmem hlt hacc
    rw [List.foldl_cons]
    by_cases hca : c = a
    · subst hca
      have hstep : selectImageStep acc c =
          ("https://img.gamedistribution.com/" ++ c.name, c.width.getD 0) := by
        unfold selectImageStep
        rw [if_pos hacc]
      rw [hstep]
      apply selectImage_foldl_skip
      intro b hb
      by_cases hbc : b = c
      · subst hbc; exact le_refl _
      · exact le_of_lt (hlt b (by simp [hb]) hbc)
    · have han : a ∈ t := by
        rcases List.mem_cons.mp hmem with h1 | h1
        · exact absurd h1.symm hca
        · exact h1
      have hstep2 : (selectImageStep acc c).2 < a.width.getD 0 := by
        unfold selectImageStep
        split_ifs
        · exact hlt c (by simp) hca
        · exact hacc
      exact ih (selectImageStep acc c) han (fun b hb hba => hlt b (by simp [hb]) hba) hstep2

/-- C8 (amended): in the structured-data path, when some asset has a positive
declared width strictly above the declared width of every other asset, the selected
image url is composed from the name of that asset.  Positivity is needed because the
scan starts from a threshold of zero. -/
theorem select_image_largest_width (assets : List Asset) (a : Asset)
    (ha : a ∈ assets) (hw : 0 < a.width.getD 0)
    (hmax : ∀ b ∈ assets, b ≠ a → b.width.getD 0 < a.width.getD 0) :
    selectImage assets = ("https://img.gamedistribution.com/" ++ a.name, a.width.getD 0) :=
  selectImage_foldl_max a assets ("", 0) ha hmax hw

/-- C8 witness: for the declared widths 200, 800 and 400 the width-800 asset is
selected. -/
theorem select_image_largest_width_witness :
    selectImage assetsExample =
      ("https://img.gamedistribution.com/" ++ assetBig.name, assetBig.width.getD 0) :=
  select_image_largest_width assetsExample assetBig (by decide) (by decide) (by decide)

/-- C8 counterexample: in the assets list below the first asset has the strictly
largest declared width (zero, every other width being smaller), yet the selected
image url is empty rather than composed from its name, because the scan threshold
starts at zero. -/
theorem select_image_zero_width :
    (([{ name := "a", width := some 0 }, { name := "b", width := some (-5) }] : List Asset).all
        (fun b => b == { name := "a", width := some 0 } || b.width.getD 0 < 0) = true) ∧
    selectImage [{ name := "a", width := some 0 }, { name := "b", width := some (-5) }] = ("", 0) ∧
    ("" : String) ≠ "https://img.gamedistribution.com/a" := by
  refine ⟨by decide, by decide, by decide⟩

/-- C7: on a rendered listing page the site-specific selector strategies are tried in
their fixed order and the first with at least one match is used exclusively; in
particular when only the third, fallback strategy matches, exactly its matches are
returned and nothing is merged from the others. -/
theorem link_discovery_first_match (select : String → List Elem) (url : String)
    (hp : strContains url "poki.com" = false) :
    (strContains url "gamepix.com" = true →
      select "a[href*=\"/play/\"]" = [] → select ".game-card a" = [] →
      discoverLinks select url = select "[class*=\"game\"] a") ∧
    (strContains url "gamepix.com" = false →
      select "a[href*=\"/games/\"]" = [] → select ".game-card a" = [] →
      discoverLinks select url = select "[class*=\"game\"] a") := by
  constructor
  · intro hg h1 h2
    unfold discoverLinks
    rw [hp, hg]
    simp only [Bool.false_eq_true, if_false, if_true, gamepixListingSelectors,
      selectFirstNonEmpty, h1, h2, List.isEmpty_nil]
    cases hr : (select "[class*=\"game\"] a").isEmpty
    · simp [hr]
    · simp [hr, List.isEmpty_iff.mp hr]
  · intro hg h1 h2
    unfold discoverLinks
    rw [hp, hg]
    simp only [Bool.false_eq_true, if_false, gdListingSelectors,
      selectFirstNonEmpty, h1, h2, List.isEmpty_nil]
    cases hr : (select "[class*=\"game\"] a").isEmpty
    · simp [hr]
    · simp [hr, List.isEmpty_iff.mp hr]

/-- C7 witness: a select function matched only by the third gamepix strategy yields
exactly that strategy's matches. -/
theorem link_discovery_first_match_witness :
    discoverLinks selThird "https://www.gamepix.com/" = selThird "[class*=\"game\"] a" :=
  (link_discovery_first_match selThird "https://www.gamepix.com/" (by decide)).1
    (by decide) (by decide) (by decide)

/- Inversion lemmas for the four extraction paths. -/

theorem genericPath_some_iff (soup : Html) (raw url : String) :
    (∃ r, genericPath soup raw url = some r) ↔
      (genericName soup url ≠ "" ∧ (genericDesc soup url ≠ "" ∨ genericImg soup url ≠ "")) := by
  simp only [genericPath]
  split_ifs with h1 h2
  · simp [h1]
  · simp [h2.1, h2.2]
  · simp [h1]
    tauto

theorem genericPath_inv {soup : Html} {raw url : String} {r : GameRecord}
    (h : genericPath soup raw url = some r) :
    r.name ≠ "" ∧ (r.description ≠ "" ∨ r.image_url ≠ "") ∧ r.game_url = url := by
  simp only [genericPath] at h
  split_ifs at h with h1 h2
  injection h with h3
  subst h3
  refine ⟨?_, ?_, ?_⟩
  · show genericName soup url ≠ ""
    exact h1
  · show genericDesc soup url ≠ "" ∨ genericImg soup url ≠ ""
    tauto
  · rfl

theorem pokiIframePath_none {soup : Html} (url : String) (h : hasIframeSignal soup = false) :
    pokiIframePath soup url = none := by
  unfold pokiIframePath
  cases hif : soup.iframeGameElement with
  | none => rfl
  | some e =>
    have hsrc : e.src.getD "" = "" := by
      unfold hasIframeSignal at h
      rw [hif] at h
      simpa using h
    simp [hsrc]

theorem pokiIframePath_inv {soup : Html} {url : String} {r : GameRecord}
    (h : pokiIframePath soup url = some r) :
    r.name ≠ "" ∧ r.game_url = url ∧ hasIframeSignal soup = true := by
  unfold pokiIframePath at h
  cases hif : soup.iframeGameElement with
  | none => simp only [hif] at h; cases h
  | some e =>
    simp only [hif] at h
    by_cases h1 : e.src.getD "" = ""
    · rw [if_pos h1] at h; cases h
    · rw [if_neg h1] at h
      by_cases h2 : pokiIframeName soup = ""
      · rw [if_pos h2] at h; cases h
      · rw [if_neg h2] at h
        injection h with h3
        subst h3
        refine ⟨?_, ?_, ?_⟩
        · show pokiIframeName soup ≠ ""
          exact h2
        · rfl
        · unfold hasIframeSignal
          rw [hif]
          simpa using h1

theorem gdJsonPath_none {soup : Html} (url : String) (h : jsonIdent soup = "") :
    gdJsonPath soup url = none := by
  unfold gdJsonPath
  unfold jsonIdent at h
  cases hnd : soup.nextDataScript with
  | none => rfl
  | some ns =>
    cases ns with
    | unparseable => rfl
    | parsed og =>
      cases og with
      | none => rfl
      | some g =>
        rw [hnd] at h
        simp only at h
        simp [h]

theorem gdJsonPath_inv {soup : Html} {url : String} {r : GameRecord}
    (h : gdJsonPath soup url = some r) :
    jsonIdent soup ≠ "" ∧ r.game_url = url := by
  unfold gdJsonPath at h
  cases hnd : soup.nextDataScript with
  | none => rw [hnd] at h; cases h
  | some ns =>
    cases ns with
    | unparseable => rw [hnd] at h; cases h
    | parsed og =>
      cases og with
      | none => rw [hnd] at h; cases h
      | some g =>
        rw [hnd] at h
        simp only at h
        split_ifs at h with h1
        injection h with h3
        subst h3
        exact ⟨by simpa [jsonIdent, hnd] using h1, rfl⟩

theorem gamepixPath_inv {soup : Html} {url : String} {r : GameRecord}
    (h : gamepixPath soup url = some r) :
    r.name ≠ "" ∧ (r.description ≠ "" ∨ r.image_url ≠ "") ∧ r.game_url = url := by
  simp only [gamepixPath] at h
  split_ifs at h with h1 h2
  injection h with h3
  subst h3
  refine ⟨?_, ?_, ?_⟩
  · show gamepixName soup ≠ ""
    exact h1
  · show gamepixDesc soup ≠ "" ∨ gamepixImg soup ≠ ""
    tauto
  · rfl

theorem gamepixPath_to_generic {soup : Html} {url : String} {r : GameRecord}
    (hip : strContains url "poki.com" = false) (hig : strContains url "gamepix.com" = true)
    (h : gamepixPath soup url = some r) :
    genericName soup url ≠ "" ∧ (genericDesc soup url ≠ "" ∨ genericImg soup url ≠ "") := by
  simp only [gamepixPath] at h
  split_ifs at h with h1 h2
  constructor
  · unfold gamepixName at h1
    cases hh1 : soup.selectOne "h1" with
    | none => rw [hh1] at h1; exact absurd rfl h1
    | some e =>
      rw [hh1] at h1
      unfold genericName
      rw [hip, hig]
      exact chainValue_ne_of_mem (elemValue_ne_of_text h1) (by decide) hh1
  · rcases not_and_or.mp h2 with hd | hi
    · left
      unfold gamepixDesc at hd
      cases hhd : soup.selectOne "meta[name=\"description\"]" with
      | none => rw [hhd] at hd; exact absurd rfl hd
      | some e =>
        rw [hhd] at hd
        unfold genericDesc
        rw [hip, hig]
        exact chainValue_ne_of_mem (elemValue_ne_of_content (pyStrip_ne hd)) (by decide) hhd
    · right
      unfold gamepixImg at hi
      cases hhi : soup.selectOne "meta[property=\"og:image\"]" with
      | none => rw [hhi] at hi; exact absurd rfl hi
      | some e =>
        rw [hhi] at hi
        unfold genericImg
        rw [hip, hig]
        have hv : pyOr (e.content.getD "") (e.src.getD "") ≠ "" := by
          rw [pyOr_left hi]
          exact hi
        exact imageChain_ne_of_mem hv (by decide) hhi

/- Case analysis of the extraction strategy chain. -/

theorem extract_some_elim {parse : String → Html} {s url : String} {r : GameRecord}
    (h : extract_game_info parse (some s) url = some r) :
    (strContains url "poki.com" = true ∧ pokiIframePath (parse s) url = some r) ∨
    (strContains url "poki.com" = false ∧ strContains url "gamepix.com" = false ∧
      gdJsonPath (parse s) url = some r) ∨
    (strContains url "gamepix.com" = true ∧ gamepixPath (parse s) url = some r) ∨
    genericPath (parse s) s url = some r := by
  simp only [extract_game_info] at h
  split_ifs at h with hs
  simp only [extractParsed] at h
  cases hip : strContains url "poki.com" <;> cases hig : strContains url "gamepix.com" <;>
        simp only [hip, hig, Bool.not_true, Bool.not_false, Bool.false_and, Bool.and_self,
          Bool.true_and, Bool.and_false, Bool.false_eq_true, if_false, if_true] at h
  · cases hgd : gdJsonPath (parse s) url with
    | some r2 =>
      rw [hgd] at h
      simp only at h
      injection h with h4
      subst h4
      exact Or.inr (Or.inl ⟨rfl, rfl, rfl⟩)
    | none =>
      rw [hgd] at h
      simp only at h
      exact Or.inr (Or.inr (Or.inr h))
  · cases hgp : gamepixPath (parse s) url with
    | some r2 =>
      rw [hgp] at h
      simp only at h
      injection h with h4
      subst h4
      exact Or.inr (Or.inr (Or.inl ⟨rfl, rfl⟩))
    | none =>
      rw [hgp] at h
      simp only at h
      exact Or.inr (Or.inr (Or.inr h))
  · cases hpk : pokiIframePath (parse s) url with
    | some r2 =>
      rw [hpk] at h
      simp only at h
      injection h with h4
      subst h4
      exact Or.inl ⟨rfl, rfl⟩
    | none =>
      rw [hpk] at h
      simp only at h
      exact Or.inr (Or.inr (Or.inr h))
  · cases hpk : pokiIframePath (parse s) url with
    | some r2 =>
      rw [hpk] at h
      simp only at h
      injection h with h4
      subst h4
      exact Or.inl ⟨rfl, rfl⟩
    | none =>
      rw [hpk] at h
      simp only at h
      cases hgp : gamepixPath (parse s) url with
      | some r2 =>
        rw [hgp] at h
        simp only at h
        injection h with h4
        subst h4
        exact Or.inr (Or.inr (Or.inl ⟨rfl, rfl⟩))
      | none =>
        rw [hgp] at h
        simp only at h
        exact Or.inr (Or.inr (Or.inr h))

/- Claim theorems for C9, C3 and C6. -/

/-- C9: on every emission path of extract_game_info the emitted record carries the
url argument, unchanged, as its game_url field. -/
theorem extract_preserves_game_url (parse : String → Html) (html : Option String)
    (url : String) (r : GameRecord) (h : extract_game_info parse html url = some r) :
    r.game_url = url := by
  cases html with
  | none => cases h
  | some s =>
    rcases extract_some_elim h with ⟨_, hp⟩ | ⟨_, _, hp⟩ | ⟨_, hp⟩ | hp
    · exact (pokiIframePath_inv hp).2.1
    · exact (gdJsonPath_inv hp).2
    · exact (gamepixPath_inv hp).2.2
    · exact (genericPath_inv hp).2.2

/-- C9 witness: a concrete iframe-path extraction whose record carries exactly the
url argument. -/
theorem extract_preserves_game_url_witness :
    extract_game_info (fun _ => docIframe) (some "HI") "https://poki.com/en/g/xg" =
      some recIframe ∧
    recIframe.game_url = "https://poki.com/en/g/xg" :=
  ⟨by decide,
   extract_preserves_game_url (fun _ => docIframe) (some "HI") "https://poki.com/en/g/xg"
     recIframe (by decide)⟩

/-- C3 (amended): every emitted record satisfies the name and description-or-image
requirement, except that the iframe-identity path may emit on a non-empty name alone
once the player iframe with a source is present, and the JSON-embedded-data path may
emit whenever the payload identifier is present, even with an EMPTY name. -/
theorem emission_invariant (parse : String → Html) (s url : String) (r : GameRecord)
    (h : extract_game_info parse (some s) url = some r) :
    (r.name ≠ "" ∧ (r.description ≠ "" ∨ r.image_url ≠ "")) ∨
    (strContains url "poki.com" = true ∧ hasIframeSignal (parse s) = true ∧ r.name ≠ "") ∨
    (strContains url "poki.com" = false ∧ strContains url "gamepix.com" = false ∧
      jsonIdent (parse s) ≠ "") := by
  rcases extract_some_elim h with ⟨hip, hp⟩ | ⟨hip, hig, hp⟩ | ⟨hig, hp⟩ | hp
  · obtain ⟨hn, _, hsig⟩ := pokiIframePath_inv hp
    exact Or.inr (Or.inl ⟨hip, hsig, hn⟩)
  · obtain ⟨hj, _⟩ := gdJsonPath_inv hp
    exact Or.inr (Or.inr ⟨hip, hig, hj⟩)
  · obtain ⟨hn, hdi, _⟩ := gamepixPath_inv hp
    exact Or.inl ⟨hn, hdi⟩
  · obtain ⟨hn, hdi, _⟩ := genericPath_inv hp
    exact Or.inl ⟨hn, hdi⟩

/-- C3 counterexample: the JSON-embedded-data path emits a record whose name is the
empty string when the payload carries an objectID but no title, refuting the claim
that no path ever emits a record with an empty name. -/
theorem json_path_empty_name :
    extract_game_info parseEmptyName (some "NX") "https://gamedistribution.com/games/zzz" =
      some recEmptyName ∧
    recEmptyName.name = "" := by
  exact ⟨by decide, by decide⟩

/-- C3 witness: the amended invariant instantiated at a concrete gamepix emission. -/
theorem emission_invariant_witness :
    (recPixi.name ≠ "" ∧ (recPixi.description ≠ "" ∨ recPixi.image_url ≠ "")) ∨
    (strContains "https://www.gamepix.com/play/pixi" "poki.com" = true ∧
      hasIframeSignal docPixi = true ∧ recPixi.name ≠ "") ∨
    (strContains "https://www.gamepix.com/play/pixi" "poki.com" = false ∧
      strContains "https://www.gamepix.com/play/pixi" "gamepix.com" = false ∧
      jsonIdent docPixi ≠ "") :=
  emission_invariant (fun _ => docPixi) "HP" "https://www.gamepix.com/play/pixi" recPixi
    (by decide)

/-- C6: for detail pages without the specialized signal of their site, extraction is
exactly the generic fallback: for the iframe site without an iframe signal, and for
the structured-data site without a payload identifier, the result IS the generic
path; for gamepix the record-existence condition of the generic chains governs
emission; and the generic path emits a record precisely when the generic name
resolves non-empty and the generic description or image resolves non-empty. -/
theorem generic_fallback_behavior (parse : String → Html) (s url : String) (hs : s ≠ "") :
    ((strContains url "poki.com" = true → strContains url "gamepix.com" = false →
        hasIframeSignal (parse s) = false →
        extract_game_info parse (some s) url = genericPath (parse s) s url) ∧
     (strContains url "poki.com" = false → strContains url "gamepix.com" = false →
        jsonIdent (parse s) = "" →
        extract_game_info parse (some s) url = genericPath (parse s) s url) ∧
     (strContains url "poki.com" = false → strContains url "gamepix.com" = true →
        ((∃ r, extract_game_info parse (some s) url = some r) ↔
          (genericName (parse s) url ≠ "" ∧
            (genericDesc (parse s) url ≠ "" ∨ genericImg (parse s) url ≠ "")))) ∧
     ((∃ r, genericPath (parse s) s url = some r) ↔
        (genericName (parse s) url ≠ "" ∧
          (genericDesc (parse s) url ≠ "" ∨ genericImg (parse s) url ≠ "")))) := by
  have hext : extract_game_info parse (some s) url = extractParsed (parse s) s url := by
    simp [extract_game_info, hs]
  refine ⟨?_, ?_, ?_, genericPath_some_iff _ _ _⟩
  · intro hip hig hsig
    rw [hext]
    simp [extractParsed, hip, hig, pokiIframePath_none url hsig]
  · intro hip hig hjs
    rw [hext]
    simp [extractParsed, hip, hig, gdJsonPath_none url hjs]
  · intro hip hig
    rw [hext]
    cases hgp : gamepixPath (parse s) url with
    | some r2 =>
      constructor
      · intro _
        exact gamepixPath_to_generic hip hig hgp
      · intro _
        exact ⟨r2, by simp [extractParsed, hip, hig, hgp]⟩
    | none =>
      have hred : extractParsed (parse s) s url = genericPath (parse s) s url := by
        simp [extractParsed, hip, hig, hgp]
      rw [hred]
      exact genericPath_some_iff _ _ _

/-- C6 witness: the generic-fallback equality instantiated at a concrete
structured-data-site page without a payload. -/
theorem generic_fallback_behavior_witness :
    extract_game_info parseAB (some "HA") "https://gamedistribution.com/games/alpha" =
      genericPath (parseAB "HA") "HA" "https://gamedistribution.com/games/alpha" :=
  (generic_fallback_behavior parseAB "HA" "https://gamedistribution.com/games/alpha"
      (by decide)).2.1 (by decide) (by decide) (by decide)

/- Helper lemmas for the batch pipeline. -/

theorem process_cons_href {env : Env} {url : String} {g : GVal} {gs : List GVal}
    (hg : GVal.hrefOf g ≠ "") :
    process_game_batch env url (g :: gs) =
      env.fetch (requestUrl url g) :: process_game_batch env url gs := by
  simp [process_game_batch, hg]

theorem extractPair_eq_fetchExtract {env : Env} {url : String} {g : GVal}
    (hg : GVal.hrefOf g ≠ "") :
    extractPair env url (env.fetch (requestUrl url g), g) = fetchExtract env url g := by
  cases hf : env.fetch (requestUrl url g) <;> simp [extractPair, fetchExtract, hf, hg]

theorem chunkExtract_eq_linkFetchExtract (env : Env) (link : String) :
    chunkExtract env (env.fetch link, link) = linkFetchExtract env link := by
  cases hf : env.fetch link <;> simp [chunkExtract, linkFetchExtract, hf]

/-- C2 (amended): fetch results are paired positionally with their requesting
element, so when EVERY element of a batch has a non-empty href the batch produces
exactly the per-element fetch-and-extract results, each record extracted at its own
element's resolved url; the async-branch chunks behave this way unconditionally,
their links being pre-filtered non-empty.  When an element with an empty or missing
href precedes others in a batch, the positional zip shifts and this correspondence is
lost (see the counterexample). -/
theorem batch_pairing_positional (env : Env) (url : String) :
    (∀ batch : List GVal, (∀ g ∈ batch, GVal.hrefOf g ≠ "") →
      batchRecords env url batch = batch.filterMap (fetchExtract env url)) ∧
    (∀ chunk : List String, chunkRecords env chunk = chunk.filterMap (linkFetchExtract env)) := by
  constructor
  · intro batch hall
    induction batch with
    | nil => rfl
    | cons g gs ih =>
      have hg : GVal.hrefOf g ≠ "" := hall g (by simp)
      have ihg := ih (fun x hx => hall x (List.mem_cons_of_mem _ hx))
      show ((process_game_batch env url (g :: gs)).zip (g :: gs)).filterMap (extractPair env url) =
        List.filterMap (fetchExtract env url) (g :: gs)
      rw [process_cons_href hg, List.zip_cons_cons, List.filterMap_cons, List.filterMap_cons,
        extractPair_eq_fetchExtract hg]
      cases hv : fetchExtract env url g <;> simp [hv] <;> exact ihg
  · intro chunk
    induction chunk with
    | nil => rfl
    | cons l ls ih =>
      show ((List.map env.fetch (l :: ls)).zip (l :: ls)).filterMap (chunkExtract env) =
        List.filterMap (linkFetchExtract env) (l :: ls)
      rw [List.map_cons, List.zip_cons_cons, List.filterMap_cons, List.filterMap_cons,
        chunkExtract_eq_linkFetchExtract env l]
      cases hv : linkFetchExtract env l <;> simp [hv] <;> exact ih

/-- C2 counterexample: in a batch whose first discovered element has no href, the
gathered responses shift against the batch under the positional zip: the body
fetched for the third element (it extracts to the record named GameB) is paired with
the SECOND element and the produced record carries that other element's url, while a
correct pairing would have stored the fetched url itself. -/
theorem empty_href_shifts_pairing :
    batchRecords envPairing "https://www.gamepix.com/" [tagNoHref, tagA, tagB] =
      [{ name := "GameB", description := "about B", image_url := "",
         game_url := "https://x.example/a", game_api_url := "" }] ∧
    extract_game_info parseAB (some "HB") "https://x.example/b" =
      some { name := "GameB", description := "about B", image_url := "",
             game_url := "https://x.example/b", game_api_url := "" } ∧
    [tagNoHref, tagA, tagB].filterMap (fetchExtract envPairing "https://www.gamepix.com/") =
      [{ name := "GameA", description := "about A", image_url := "",
         game_url := "https://x.example/a", game_api_url := "" },
       { name := "GameB", description := "about B", image_url := "",
         game_url := "https://x.example/b", game_api_url := "" }] := by
  refine ⟨by decide, by decide, by decide⟩

/-- C2 witness: the positional pairing equation instantiated on a batch whose
elements all carry hrefs. -/
theorem batch_pairing_positional_witness :
    batchRecords envPairing "https://www.gamepix.com/" [tagA, tagB] =
      [tagA, tagB].filterMap (fetchExtract envPairing "https://www.gamepix.com/") :=
  (batch_pairing_positional envPairing "https://www.gamepix.com/").1 [tagA, tagB] (by decide)

/- Helper lemmas for main and the driver. -/

theorem scrape_ok_of_driver (env : Env) (url : String) (h : env.driverOk = true) :
    ∃ gs, scrape_website env url = .ok gs := by
  unfold scrape_website
  cases hf : env.fetch url with
  | none => exact ⟨[], rfl⟩
  | some h0 =>
    by_cases h1 : h0 = ""
    · refine ⟨[], ?_⟩
      simp [h1]
    · by_cases h2 : strContains url "poki.com" = true
      · refine ⟨(pokiScrape env h0).map GVal.extracted, ?_⟩
        simp [h1, h2]
      · refine ⟨renderScrape env url, ?_⟩
        simp [h1, h2, h]

theorem mainLoop_ok (env : Env) (h : env.driverOk = true) :
    ∀ (ws : List String) (acc : List GVal), ∃ gs, mainLoop env ws acc = .ok gs := by
  intro ws
  induction ws with
  | nil => intro acc; exact ⟨acc, rfl⟩
  | cons w ws ih =>
    intro acc
    obtain ⟨gs, hg⟩ := scrape_ok_of_driver env w h
    simpa [mainLoop, hg] using ih (acc ++ gs)

/-- C4 (amended): when the browser driver starts, no condition in the model aborts
the run and main returns normally for every environment; but when the driver cannot
be created and the rendering-site listing fetch succeeds, setup_driver raises
SystemExit(1), which the per-site Exception handler does not catch, so the WHOLE run
terminates with exit code 1 instead of continuing with the remaining seed urls. -/
theorem driver_failure_behavior :
    (∀ env : Env, env.driverOk = true → ∃ gs, mainModel env = .ok gs) ∧
    (∀ env : Env, env.driverOk = false →
      (∃ h0, env.fetch "https://gamedistribution.com/games/" = some h0 ∧ h0 ≠ "") →
      mainModel env = .error 1) := by
  constructor
  · intro env h
    exact mainLoop_ok env h websitesList []
  · rintro env hdrv ⟨h0, hf, hne⟩
    have hpoki : ∃ gs1, scrape_website env "https://poki.com/en" = .ok gs1 := by
      unfold scrape_website
      cases hfp : env.fetch "https://poki.com/en" with
      | none => exact ⟨[], rfl⟩
      | some hp =>
        by_cases h1 : hp = ""
        · refine ⟨[], ?_⟩
          simp [h1]
        · refine ⟨(pokiScrape env hp).map GVal.extracted, ?_⟩
          simp [h1, (by decide : strContains "https://poki.com/en" "poki.com" = true)]
    obtain ⟨gs1, hg1⟩ := hpoki
    have hgd : scrape_website env "https://gamedistribution.com/games/" = .error 1 := by
      unfold scrape_website
      rw [hf]
      simp [hne, (by decide : strContains "https://gamedistribution.com/games/" "poki.com" = false),
        hdrv]
    simp [mainModel, websitesList, mainLoop, hg1, hgd]

/-- C4 counterexample: with a working network path to the rendering site but a failed
driver start, the whole run terminates with exit code 1; the remaining seed url is
never scraped, refuting the claim that only the crawl of that one site terminates. -/
theorem driver_failure_kills_run : mainModel envDriverFail = .error 1 := by decide

/-- C4 witness: both halves of the amended claim at concrete environments. -/
theorem driver_failure_behavior_witness :
    (∃ gs, mainModel envAllOk = .ok gs) ∧ mainModel envDriverFail = .error 1 :=
  ⟨driver_failure_behavior.1 envAllOk rfl,
   driver_failure_behavior.2 envDriverFail rfl ⟨"R", by decide, by decide⟩⟩

/- Helper lemmas for the rendering loop shape. -/

theorem tagsOf_append (a b : List GVal) : tagsOf (a ++ b) = tagsOf a ++ tagsOf b :=
  List.filterMap_append _ _ _

theorem tagsOf_map_tag : ∀ (l : List Elem), tagsOf (l.map GVal.tag) = l
  | [] => rfl
  | x :: xs => congrArg (x :: ·) (tagsOf_map_tag xs)

theorem tagsOf_map_extracted : ∀ (l : List GameRecord), tagsOf (l.map GVal.extracted) = []
  | [] => rfl
  | _ :: xs => tagsOf_map_extracted xs

theorem tagsOf_slice (links : List Elem) (recs : List GameRecord) (i : Nat) :
    tagsOf (((links.map GVal.tag ++ recs.map GVal.extracted).drop i).take 10) =
      (links.drop i).take 10 := by
  rw [List.drop_append_eq_append_drop, List.take_append_eq_append_take, tagsOf_append]
  rw [← List.map_drop, ← List.map_take, tagsOf_map_tag]
  rw [← List.map_drop, ← List.map_take, tagsOf_map_extracted]
  rw [List.append_nil]

theorem renderStep_foldl_shape (env : Env) (url : String) :
    ∀ (idxs : List Nat) (st : List GVal × List (List GVal)),
      ∃ recs : List GameRecord,
        (idxs.foldl (renderStep env url) st).1 = st.1 ++ recs.map GVal.extracted := by
  intro idxs
  induction idxs with
  | nil => intro st; exact ⟨[], by simp⟩
  | cons i is ih =>
    intro st
    rw [List.foldl_cons]
    obtain ⟨recs, hr⟩ := ih (renderStep env url st i)
    refine ⟨batchRecords env url ((st.1.drop i).take 10) ++ recs, ?_⟩
    rw [hr]
    simp [renderStep, List.map_append, List.append_assoc]

theorem renderSteps_eq_stateAt (env : Env) (url : String) :
    renderSteps env url = stateAt env url (((discoveredLinks env url).length + 9) / 10) := rfl

/-- C1 (amended): for the async poki site every returned element is an extracted
record; for a rendering-strategy site the returned games list is the raw discovered
link elements FOLLOWED BY the extracted records, because records are appended to the
same list that holds the links, so the defensive filtering downstream is not a no-op
on link elements. -/
theorem scrape_result_shape (env : Env) (url : String) :
    (∀ gs, strContains url "poki.com" = true → scrape_website env url = .ok gs →
      ∀ x ∈ gs, isRecordVal x = true) ∧
    (∃ recs : List GameRecord,
      renderScrape env url =
        (discoveredLinks env url).map GVal.tag ++ recs.map GVal.extracted) := by
  constructor
  · intro gs hip hok x hx
    unfold scrape_website at hok
    cases hf : env.fetch url with
    | none =>
      rw [hf] at hok
      injection hok with h1
      subst h1
      cases hx
    | some h0 =>
      rw [hf] at hok
      by_cases h1 : h0 = ""
      · simp [h1] at hok
        subst hok
        cases hx
      · simp [h1, hip] at hok
        subst hok
        obtain ⟨r, _, rfl⟩ := List.mem_map.mp hx
        rfl
  · obtain ⟨recs, hr⟩ := renderStep_foldl_shape env url
      (renderIndices (discoveredLinks env url).length) ((discoveredLinks env url).map GVal.tag, [])
    exact ⟨recs, hr⟩

/-- C1 counterexample: a rendering-branch run whose single discovered link fails to
fetch returns a list whose element is the raw link element, not a record, refuting
the claim that every element of the returned sequence is a GameRecord. -/
theorem rendered_scrape_returns_raw_tag :
    scrape_website envTagOnly "https://www.gamepix.com/" =
      .ok [GVal.tag { href := some "https://g.example/z" }] ∧
    isRecordVal (GVal.tag { href := some "https://g.example/z" }) = false := by
  refine ⟨by decide, by decide⟩

/-- C1 witness: both halves of the amended claim at concrete environments. -/
theorem scrape_result_shape_witness :
    isRecordVal (GVal.extracted recIframe) = true ∧
    (∃ recs : List GameRecord,
      renderScrape envTagOnly "https://www.gamepix.com/" =
        (discoveredLinks envTagOnly "https://www.gamepix.com/").map GVal.tag ++
          recs.map GVal.extracted) :=
  ⟨(scrape_result_shape envPoki "https://poki.com/en").1 [GVal.extracted recIframe] (by decide)
      (by decide) (GVal.extracted recIframe) (by decide),
   (scrape_result_shape envTagOnly "https://www.gamepix.com/").2⟩

/- Helper lemmas for the chunk structure. -/

theorem chunks10_as_slices : ∀ (l : List α),
    chunks10 l = (List.range ((l.length + 9) / 10)).map (fun k => (l.drop (10 * k)).take 10)
  | [] => by simp [chunks10]
  | x :: xs => by
    rw [chunks10]
    have ih := chunks10_as_slices ((x :: xs).drop 10)
    have hlen : ((x :: xs).length + 9) / 10 = (((x :: xs).drop 10).length + 9) / 10 + 1 := by
      simp only [List.length_drop, List.length_cons]
      omega
    rw [ih, hlen, List.range_succ_eq_map]
    simp only [List.map_cons, List.map_map, Nat.mul_zero, List.drop_zero]
    congr 1
    apply List.map_congr_left
    intro k _
    simp only [Function.comp_apply, List.drop_drop]
    congr 2
    omega
termination_by l => l.length
decreasing_by simp; omega

theorem chunks10_flatten : ∀ (l : List α), (chunks10 l).flatten = l
  | [] => by simp [chunks10]
  | x :: xs => by
    rw [chunks10]
    rw [List.flatten_cons]
    rw [chunks10_flatten ((x :: xs).drop 10)]
    exact List.take_append_drop 10 (x :: xs)
termination_by l => l.length
decreasing_by simp; omega

theorem chunks10_sizes : ∀ (l : List α),
    (chunks10 l).map List.length =
      List.replicate (l.length / 10) 10 ++
        (if l.length % 10 = 0 then [] else [l.length % 10])
  | [] => by simp [chunks10]
  | x :: xs => by
    rw [chunks10]
    simp only [List.map_cons]
    rw [chunks10_sizes ((x :: xs).drop 10)]
    simp only [List.length_take, List.length_drop, List.length_cons]
    by_cases h10 : 10 ≤ xs.length + 1
    · have hmin : min 10 (xs.length + 1) = 10 := by omega
      have hdiv : (xs.length + 1) / 10 = (xs.length + 1 - 10) / 10 + 1 := by omega
      have hmod : (xs.length + 1 - 10) % 10 = (xs.length + 1) % 10 := by omega
      rw [hmin, hdiv, hmod, List.replicate_succ]
      simp
    · have hmin : min 10 (xs.length + 1) = xs.length + 1 := by omega
      have hsub : xs.length + 1 - 10 = 0 := by omega
      have hdiv : (xs.length + 1) / 10 = 0 := by omega
      have hmod : (xs.length + 1) % 10 = xs.length + 1 := by omega
      rw [hmin, hsub, hdiv, hmod]
      simp
termination_by l => l.length
decreasing_by simp; omega

theorem stateAt_spec (env : Env) (url : String) : ∀ m : Nat,
    (∃ recs : List GameRecord,
      (stateAt env url m).1 =
        (discoveredLinks env url).map GVal.tag ++ recs.map GVal.extracted) ∧
    ((stateAt env url m).2.map tagsOf =
      (List.range m).map (fun k => ((discoveredLinks env url).drop (10 * k)).take 10)) ∧
    ((stateAt env url m).2.length = m) ∧
    (∀ b ∈ (stateAt env url m).2, b.length ≤ 10) := by
  intro m
  induction m with
  | zero =>
    refine ⟨⟨[], by simp [stateAt]⟩, by simp [stateAt], by simp [stateAt], ?_⟩
    intro b hb
    simp [stateAt] at hb
  | succ m ih =>
    obtain ⟨⟨recs, hgs⟩, hbt, hbl, hbb⟩ := ih
    have hstep : stateAt env url (m + 1) = renderStep env url (stateAt env url m) (10 * m) := by
      unfold stateAt
      rw [List.range_succ, List.map_append, List.foldl_append]
      simp
    refine ⟨⟨recs ++ batchRecords env url (((stateAt env url m).1.drop (10 * m)).take 10), ?_⟩,
        ?_, ?_, ?_⟩
    · rw [hstep]
      simp only [renderStep]
      rw [hgs]
      simp [List.map_append, List.append_assoc]
    · rw [hstep]
      simp only [renderStep]
      rw [List.map_append, hbt, List.range_succ, List.map_append]
      simp only [List.map_cons, List.map_nil]
      congr 1
      rw [hgs, tagsOf_slice]
    · rw [hstep]
      simp only [renderStep]
      simp [hbl]
    · rw [hstep]
      simp only [renderStep]
      intro b hb
      simp only [List.mem_append, List.mem_singleton] at hb
      rcases hb with hb | hb
      · exact hbb b hb
      · subst hb
        exact List.length_take_le 10 _

/-- C5: the rendering loop takes exactly ceil(n/10) batch slices for n discovered
links, processed sequentially with at most ten elements and hence at most ten
gathered fetches per batch, and the LINK elements of the slices are exactly the
consecutive ten-chunks of the discovered links (records appended by earlier batches
may pad the final slice but carry no href and are never fetched); the async branch
slices its link list into these same ten-chunks, whose sizes are ten except for a
final chunk of n mod 10 when n is not divisible by ten, and which flatten back to
the original links. -/
theorem batching_structure (env : Env) (url : String) :
    ((renderBatches env url).map tagsOf = chunks10 (discoveredLinks env url)) ∧
    ((renderBatches env url).length = ((discoveredLinks env url).length + 9) / 10) ∧
    (∀ b ∈ renderBatches env url, b.length ≤ 10 ∧ (process_game_batch env url b).length ≤ 10) ∧
    (∀ l : List String, pokiChunks l = chunks10 l) ∧
    (∀ l : List Elem, (chunks10 l).flatten = l ∧
      (chunks10 l).map List.length =
        List.replicate (l.length / 10) 10 ++
          (if l.length % 10 = 0 then [] else [l.length % 10])) := by
  have hrb : renderBatches env url =
      (stateAt env url (((discoveredLinks env url).length + 9) / 10)).2 := by
    rw [renderBatches, renderSteps_eq_stateAt]
  have hspec := stateAt_spec env url (((discoveredLinks env url).length + 9) / 10)
  refine ⟨?_, ?_, ?_, ?_, fun l => ⟨chunks10_flatten l, chunks10_sizes l⟩⟩
  · rw [hrb, hspec.2.1, chunks10_as_slices]
  · rw [hrb, hspec.2.2.1]
  · intro b hb
    rw [hrb] at hb
    refine ⟨hspec.2.2.2 b hb, ?_⟩
    exact le_trans (List.length_filterMap_le _ _) (hspec.2.2.2 b hb)
  · intro l
    rw [pokiChunks, renderIndices, List.map_map, chunks10_as_slices]
    rfl

/-- C5 witness: the per-batch bounds instantiated at the concrete three-link batch
of a small rendering run. -/
theorem batching_structure_witness :
    batch3.length ≤ 10 ∧
    (process_game_batch envSmallRender "https://www.gamepix.com/" batch3).length ≤ 10 :=
  (batching_structure envSmallRender "https://www.gamepix.com/").2.2.1 batch3 (by decide)

end PokiScraper
